import Mathlib

/-
Verification of the ledger and account state engine of src/main.py
(DepositSteam bot). The SQLite-backed store is embedded shallowly: the
two tables become lists of typed records, and each Python function that
touches the store becomes a pure Lean function on the store state. SQL
statements are translated by their SQLite semantics: INSERT OR IGNORE
skips the row when the UNIQUE telegram_id is already present, UPDATE
rewrites every matching row, SUM skips NULLs and coerces text operands
to numbers, and a NULL aggregate result is coalesced to 0.0 by the
Python callers. Amounts live in the dynamically typed SQLite value
universe (the deposit handler can store a text placeholder in the REAL
amount column, which SQLite keeps as text), modelled by SQLVal; numeric
amounts are rationals.
-/

namespace DepositBot

/-- A dynamically typed SQLite cell value, as stored in the amount
column: NULL, a numeric value, or a text value (SQLite type affinity
keeps non-numeric text as text even in a REAL column). -/
inductive SQLVal where
  | null : SQLVal
  | real (q : ℚ) : SQLVal
  | text (s : String) : SQLVal
deriving DecidableEq

/-- Value of the longest leading run of decimal digits of a character
list, accumulator style. -/
def digitPrefixAux : List Char → Nat → Nat
  | [], acc => acc
  | c :: cs, acc =>
      if c.isDigit then digitPrefixAux cs (acc * 10 + (c.toNat - 48)) else acc

/-- Numeric value SQLite assigns to a text operand inside an aggregate:
the value of its numeric prefix, and zero when the text does not start
with a digit. Modelled for unsigned integral prefixes, which covers
every text value this program ever stores in the amount column. -/
def textToNum (s : String) : ℚ := (digitPrefixAux s.data 0 : ℚ)

/-- Numeric reading of a cell for SUM: NULL contributes nothing, a
number itself, text its coerced numeric value. -/
def SQLVal.toNum : SQLVal → Option ℚ
  | SQLVal.null => none
  | SQLVal.real q => some q
  | SQLVal.text s => some (textToNum s)

/-- SQLite SUM over a column: NULL inputs are skipped, and the result is
NULL when no non-NULL input exists (in particular over zero rows). -/
def sqlSum : List SQLVal → Option ℚ
  | [] => none
  | v :: vs =>
      match SQLVal.toNum v, sqlSum vs with
      | none, r => r
      | some q, none => some q
      | some q, some r => some (q + r)

/-- A row of the users table (src/main.py, CREATE_USERS_TABLE). -/
structure User where
  id : Nat
  telegram_id : Int
  username : Option String
  first_name : Option String
  last_name : Option String
  created_at : Nat
  is_admin : Bool
  steam_wallet_balance : ℚ
deriving DecidableEq

/-- A row of the transactions table (src/main.py,
CREATE_TRANSACTIONS_TABLE). -/
structure Transaction where
  id : Nat
  user_telegram_id : Int
  type : String
  amount : SQLVal
  currency : String
  status : String
  external_id : Option String
  description : String
  created_at : Nat
deriving DecidableEq

/-- The whole store: both tables plus the AUTOINCREMENT counters. -/
structure DB where
  users : List User
  nextUserId : Nat
  transactions : List Transaction
  nextTxId : Nat
deriving DecidableEq

/-- The store right after init_db: empty tables, AUTOINCREMENT counters
at 1. -/
def emptyDB : DB :=
  { users := [], nextUserId := 1, transactions := [], nextTxId := 1 }

/-- The INSERT OR IGNORE step of get_or_create_user: the UNIQUE
constraint on telegram_id makes the insert a no-op when a row with that
telegram_id already exists; otherwise a fresh row is appended with
is_admin and balance at their schema defaults. -/
def insert_or_ignore_user (telegram_id : Int) (username first_name last_name : Option String) (now : Nat) (db : DB) : DB :=
  if db.users.any (fun u => u.telegram_id == telegram_id) then db
  else
    { db with
      users := db.users ++
        [{ id := db.nextUserId, telegram_id := telegram_id,
           username := username, first_name := first_name,
           last_name := last_name, created_at := now,
           is_admin := false, steam_wallet_balance := 0 }],
      nextUserId := db.nextUserId + 1 }

/-- get_or_create_user (src/main.py lines 89 to 103): INSERT OR IGNORE,
then SELECT the row by telegram_id and return it. -/
def get_or_create_user (telegram_id : Int) (username first_name last_name : Option String) (now : Nat) (db : DB) : Option User × DB :=
  let db1 := insert_or_ignore_user telegram_id username first_name last_name now db
  (db1.users.find? (fun u => u.telegram_id == telegram_id), db1)

/-- get_user_by_telegram_id (src/main.py lines 105 to 113). -/
def get_user_by_telegram_id (telegram_id : Int) (db : DB) : Option User :=
  db.users.find? (fun u => u.telegram_id == telegram_id)

/-- update_steam_wallet_balance (src/main.py lines 133 to 142):
absolute overwrite of the matching row's balance. -/
def update_steam_wallet_balance (telegram_id : Int) (new_balance : ℚ) (db : DB) : DB :=
  { db with
    users := db.users.map (fun u =>
      if u.telegram_id == telegram_id then { u with steam_wallet_balance := new_balance } else u) }

/-- add_transaction (src/main.py lines 146 to 157): unconditional
INSERT; returns the new rowid (cursor.lastrowid). No validation of any
argument is performed. -/
def add_transaction (user_telegram_id : Int) (ty : String) (amount : SQLVal) (currency : String) (status : String) (external_id : Option String) (description : String) (now : Nat) (db : DB) : Nat × DB :=
  let t : Transaction :=
    { id := db.nextTxId, user_telegram_id := user_telegram_id, type := ty,
      amount := amount, currency := currency, status := status,
      external_id := external_id, description := description, created_at := now }
  (db.nextTxId, { db with transactions := db.transactions ++ [t], nextTxId := db.nextTxId + 1 })

/-- update_transaction_status (src/main.py lines 179 to 188): the
single statement UPDATE transactions SET status WHERE id, with no guard
on the current status and no other write. -/
def update_transaction_status (transaction_id : Nat) (new_status : String) (db : DB) : DB :=
  { db with
    transactions := db.transactions.map (fun t =>
      if t.id == transaction_id then { t with status := new_status } else t) }

/-- get_total_completed_deposit_amount (src/main.py lines 206 to 212):
SUM(amount) over rows with type deposit and status completed, with a
NULL result coalesced to 0.0 in Python. -/
def get_total_completed_deposit_amount (db : DB) : ℚ :=
  (sqlSum ((db.transactions.filter
    (fun t => t.type == "deposit" && t.status == "completed")).map
      (fun t => t.amount))).getD 0

/-- get_total_completed_withdrawal_amount (src/main.py lines 214 to
220). -/
def get_total_completed_withdrawal_amount (db : DB) : ℚ :=
  (sqlSum ((db.transactions.filter
    (fun t => t.type == "withdrawal" && t.status == "completed")).map
      (fun t => t.amount))).getD 0

/-- The static administrator allow-list (src/main.py line 269). -/
def ADMIN_IDS : List Int := [1848571732, 741974404]

/-- is_admin (src/main.py lines 271 to 274): the Python expression
user and (user.is_admin or telegram_id in ADMIN_IDS) is falsy whenever
the account lookup returns None, so the allow-list is consulted only
when an account row exists. -/
def is_admin (telegram_id : Int) (db : DB) : Bool :=
  match get_user_by_telegram_id telegram_id db with
  | none => false
  | some u => u.is_admin || ADMIN_IDS.contains telegram_id

/-- The JSON object the gateway returns for createDeposit, restricted
to the keys cmd_deposit reads; each is optional because the handler
accesses them with dict.get and a default. -/
structure ApiResponse where
  address : Option String
  amount : Option SQLVal
  currency : Option String
  instructions : Option String
  externalId : Option String
deriving DecidableEq

/-- Display rendering of a cell value, for the free-text description
field the deposit handler interpolates. -/
def SQLVal.render : SQLVal → String
  | SQLVal.null => "None"
  | SQLVal.real q => toString q
  | SQLVal.text s => s

/-- cmd_deposit, store-relevant part (src/main.py lines 354 to 391).
The gateway outcome is passed in: none models call_playwallet_api
returning None after a RequestException (the GatewayError outcome).
On a response the handler records a pending deposit built from the
response fields with their dict.get defaults; on none it records
nothing and reports failure (the returned Bool is whether the deposit
was initiated). -/
def cmd_deposit (from_user_id : Int) (api_response : Option ApiResponse) (now : Nat) (db : DB) : DB × Bool :=
  match api_response with
  | none => (db, false)
  | some r =>
      let deposit_amount := r.amount.getD (SQLVal.text "Неизвестна")
      let deposit_currency := r.currency.getD "TON"
      let step := add_transaction from_user_id "deposit" deposit_amount
        deposit_currency "pending" r.externalId
        ("Ожидание пополнения " ++ SQLVal.render deposit_amount ++ " " ++ deposit_currency)
        now db
      (step.2, true)

/-- Balance of an account as cmd_balance reads it: the stored
steam_wallet_balance of the row found by telegram_id, when any. -/
def balanceOf (telegram_id : Int) (db : DB) : Option ℚ :=
  (get_user_by_telegram_id telegram_id db).map (fun u => u.steam_wallet_balance)

/-- Stored status of the ledger entry with the given id, when any. -/
def statusOf (transaction_id : Nat) (db : DB) : Option String :=
  (db.transactions.find? (fun t => t.id == transaction_id)).map (fun t => t.status)

/-- Stored username of the account with the given telegram_id. -/
def usernameOf (telegram_id : Int) (db : DB) : Option (Option String) :=
  (get_user_by_telegram_id telegram_id db).map (fun u => u.username)

/-- A store holding one registered account (telegram_id 42, balance 0)
and one pending deposit entry of amount 10 owned by it. -/
def dbPendingDeposit : DB :=
  { users :=
      [{ id := 1, telegram_id := 42, username := none, first_name := none,
         last_name := none, created_at := 0, is_admin := false,
         steam_wallet_balance := 0 }],
    nextUserId := 2,
    transactions :=
      [{ id := 1, user_telegram_id := 42, type := "deposit",
         amount := SQLVal.real 10, currency := "TON", status := "pending",
         external_id := none, description := "", created_at := 0 }],
    nextTxId := 2 }

/-- A store whose single ledger entry already sits in the terminal
status completed. -/
def dbTerminalEntry : DB :=
  { users := [],
    nextUserId := 1,
    transactions :=
      [{ id := 1, user_telegram_id := 42, type := "deposit",
         amount := SQLVal.real 10, currency := "TON", status := "completed",
         external_id := none, description := "", created_at := 0 }],
    nextTxId := 2 }

/-- A store holding one account registered with username "a". -/
def dbUserA : DB :=
  { users :=
      [{ id := 1, telegram_id := 42, username := some "a", first_name := none,
         last_name := none, created_at := 0, is_admin := false,
         steam_wallet_balance := 0 }],
    nextUserId := 2,
    transactions := [],
    nextTxId := 1 }

/-- A store holding one account with the stored admin flag set. -/
def dbFlaggedAdmin : DB :=
  { users :=
      [{ id := 1, telegram_id := 7, username := none, first_name := none,
         last_name := none, created_at := 0, is_admin := true,
         steam_wallet_balance := 0 }],
    nextUserId := 2,
    transactions := [],
    nextTxId := 1 }

/-- The store reached from an empty one by recording two pending
deposits of amounts 10 and 15 and then transitioning both to
completed. -/
def dbTwoCompletedDeposits : DB :=
  let r1 := add_transaction 42 "deposit" (SQLVal.real 10) "TON" "pending" none "" 0 emptyDB
  let r2 := add_transaction 42 "deposit" (SQLVal.real 15) "TON" "pending" none "" 1 r1.2
  update_transaction_status r2.1 "completed" (update_transaction_status r1.1 "completed" r2.2)

/-- A gateway response that carries an address but omits the amount
and currency keys. -/
def apiNoAmount : ApiResponse :=
  { address := some "UQexampleaddress", amount := none, currency := none,
    instructions := none, externalId := none }

/-- Coalesced SQLite SUM agrees with the plain rational sum of the
numeric readings of the cells, NULLs counted as zero. -/
theorem sqlSum_getD (vs : List SQLVal) :
    (sqlSum vs).getD 0 = (vs.map (fun v => v.toNum.getD 0)).sum := by
  induction vs with
  | nil => rfl
  | cons v vs ih =>
      cases hv : v.toNum with
      | none =>
          cases hs : sqlSum vs with
          | none => rw [hs] at ih; simp [sqlSum, hv, hs, ← ih]
          | some r => rw [hs] at ih; simp [sqlSum, hv, hs, ← ih]
      | some q =>
          cases hs : sqlSum vs with
          | none => rw [hs] at ih; simp [sqlSum, hv, hs, ← ih]
          | some r => rw [hs] at ih; simp [sqlSum, hv, hs, ← ih]

/-- Rewriting the status of the entry with a given id preserves every
entry's id, so lookups by id before and after see corresponding rows;
when the looked-up id is the rewritten one the stored status afterwards
is the requested status. -/
theorem find?_status_after_update (txid : Nat) (s : String) (l : List Transaction) :
    ((l.find? (fun t => t.id == txid)).isSome →
      ((l.map (fun t => if t.id == txid then { t with status := s } else t)).find?
        (fun t => t.id == txid)).map (fun t => t.status) = some s) := by
  induction l with
  | nil => simp
  | cons t ts ih =>
      intro hsome
      by_cases h : (t.id == txid) = true
      · simp [List.find?, h]
      · rw [Bool.not_eq_true] at h
        have hsome' : (ts.find? (fun t => t.id == txid)).isSome = true := by
          simpa [List.find?, h] using hsome
        simpa [List.find?, h] using ih hsome'

/-- Rewriting the status of the entry with one id leaves the row found
under any other id unchanged. -/
theorem find?_status_other (txid txid' : Nat) (s : String) (hne : txid' ≠ txid)
    (l : List Transaction) :
    ((l.map (fun t => if t.id == txid then { t with status := s } else t)).find?
      (fun t => t.id == txid')).map (fun t => t.status) =
    (l.find? (fun t => t.id == txid')).map (fun t => t.status) := by
  induction l with
  | nil => rfl
  | cons t ts ih =>
      simp only [List.map_cons]
      by_cases h : (t.id == txid) = true
      · rw [if_pos h]
        have hid : t.id = txid := beq_iff_eq.mp h
        have h' : (t.id == txid') = false := by
          rw [beq_eq_false_iff_ne, hid]
          exact fun he => hne he.symm
        have hm : ((({ t with status := s } : Transaction).id == txid') = false) := h'
        rw [List.find?_cons_of_neg _ (by simp [hm]), List.find?_cons_of_neg _ (by simp [h'])]
        exact ih
      · rw [if_neg h]
        by_cases h' : (t.id == txid') = true
        · rw [List.find?_cons_of_pos _ (by exact h'), List.find?_cons_of_pos _ (by exact h')]
        · rw [List.find?_cons_of_neg _ (by exact h'), List.find?_cons_of_neg _ (by exact h')]
          exact ih

/-- When a row with the given telegram_id exists, the INSERT OR IGNORE
of registration is a complete no-op on the store. -/
theorem insert_or_ignore_user_of_any (telegram_id : Int)
    (username first_name last_name : Option String) (now : Nat) (db : DB)
    (h : db.users.any (fun u => u.telegram_id == telegram_id) = true) :
    insert_or_ignore_user telegram_id username first_name last_name now db = db := by
  unfold insert_or_ignore_user
  rw [if_pos h]

/-- After registration a row with the registered telegram_id exists. -/
theorem any_after_ensure (telegram_id : Int)
    (username first_name last_name : Option String) (now : Nat) (db : DB) :
    ((get_or_create_user telegram_id username first_name last_name now db).2.users.any
      (fun u => u.telegram_id == telegram_id)) = true := by
  unfold get_or_create_user insert_or_ignore_user
  by_cases h : db.users.any (fun u => u.telegram_id == telegram_id) = true
  · simp [h]
  · simp [h, List.any_append]

/-- When a row with the given telegram_id exists, registration returns
the looked-up row and leaves the store untouched. -/
theorem get_or_create_user_of_any (telegram_id : Int)
    (username first_name last_name : Option String) (now : Nat) (db : DB)
    (h : db.users.any (fun u => u.telegram_id == telegram_id) = true) :
    get_or_create_user telegram_id username first_name last_name now db =
      (db.users.find? (fun u => u.telegram_id == telegram_id), db) := by
  unfold get_or_create_user
  rw [insert_or_ignore_user_of_any _ _ _ _ _ _ h]

/-- C1, counterexample: on a store holding account 42 with balance 0
and a pending deposit entry of amount 10, transitioning the entry to
completed leaves the balance at 0, so the balance does not increase by
the entry's amount (10 is not 0). -/
theorem completed_deposit_balance_unchanged_cex :
    balanceOf 42 dbPendingDeposit = some 0 ∧
    statusOf 1 dbPendingDeposit = some "pending" ∧
    (∃ t ∈ dbPendingDeposit.transactions,
      t.id = 1 ∧ t.type = "deposit" ∧ t.amount = SQLVal.real 10) ∧
    balanceOf 42 (update_transaction_status 1 "completed" dbPendingDeposit) = some 0 ∧
    (0 : ℚ) ≠ 0 + 10 := by
  refine ⟨rfl, by decide, by decide, rfl, by norm_num⟩

/-- C1, amended: the status-transition operation touches only the
transactions table; it leaves the users table, and hence every stored
wallet balance, unchanged for every entry and every requested status
(to completed as much as to failed). The balance-writing operation is
a separate function that the transition never calls. -/
theorem update_transaction_status_never_touches_balance
    (telegram_id : Int) (transaction_id : Nat) (new_status : String) (db : DB) :
    balanceOf telegram_id (update_transaction_status transaction_id new_status db) =
      balanceOf telegram_id db ∧
    (update_transaction_status transaction_id new_status db).users = db.users := by
  exact ⟨rfl, rfl⟩

/-- C2, counterexample: on a store whose entry 1 is already in the
terminal status completed, requesting a transition to pending succeeds
and overwrites the stored status, where the claim demands an
InvalidTransition failure with the status left unchanged. -/
theorem terminal_state_transition_succeeds_cex :
    statusOf 1 dbTerminalEntry = some "completed" ∧
    statusOf 1 (update_transaction_status 1 "pending" dbTerminalEntry) = some "pending" := by
  decide

/-- C2, amended: the status-transition operation is an unconditional
overwrite: for every stored entry and every requested status, including
requests that leave a terminal state, it succeeds and the entry's
stored status afterwards is exactly the requested one, while entries
with any other id keep their stored status; no InvalidTransition
failure exists. -/
theorem update_transaction_status_unconditional
    (db : DB) (transaction_id other_id : Nat) (new_status : String)
    (h : (statusOf transaction_id db).isSome = true)
    (hne : other_id ≠ transaction_id) :
    statusOf transaction_id (update_transaction_status transaction_id new_status db) =
      some new_status ∧
    statusOf other_id (update_transaction_status transaction_id new_status db) =
      statusOf other_id db := by
  constructor
  · have h' : (db.transactions.find? (fun t => t.id == transaction_id)).isSome = true := by
      simpa [statusOf] using h
    exact find?_status_after_update transaction_id new_status db.transactions h'
  · exact find?_status_other transaction_id other_id new_status hne db.transactions

/-- C2, witness: the amended transition theorem applied to the concrete
store with the completed entry 1, requested status failed, other id 2. -/
theorem update_transaction_status_unconditional_witness :
    statusOf 1 (update_transaction_status 1 "failed" dbTerminalEntry) = some "failed" ∧
    statusOf 2 (update_transaction_status 1 "failed" dbTerminalEntry) =
      statusOf 2 dbTerminalEntry := by
  exact update_transaction_status_unconditional dbTerminalEntry 1 2 "failed"
    (by decide) (by decide)

/-- C3, counterexample: recording an entry with amount 0 on the empty
store does not fail and does create an entry: afterwards the store
holds exactly one entry and its amount is 0, where the claim demands a
ValidationError and an unchanged store. -/
theorem zero_amount_accepted_cex :
    (add_transaction 42 "deposit" (SQLVal.real 0) "TON" "pending" none "" 0
      emptyDB).2.transactions.length = 1 ∧
    (∃ t ∈ (add_transaction 42 "deposit" (SQLVal.real 0) "TON" "pending" none "" 0
      emptyDB).2.transactions, t.amount = SQLVal.real 0) := by
  decide

/-- C3, amended: the entry-creation operation performs no validation of
the amount: a call with amount 0 succeeds, appends exactly one entry
carrying amount 0 to the stored entries, and returns its sequence
number. -/
theorem add_transaction_zero_amount_inserts
    (user_telegram_id : Int) (ty currency status : String)
    (external_id : Option String) (description : String) (now : Nat) (db : DB) :
    ((add_transaction user_telegram_id ty (SQLVal.real 0) currency status
        external_id description now db).2.transactions.length =
      db.transactions.length + 1) ∧
    (∃ t ∈ (add_transaction user_telegram_id ty (SQLVal.real 0) currency status
        external_id description now db).2.transactions,
      t.id = (add_transaction user_telegram_id ty (SQLVal.real 0) currency status
        external_id description now db).1 ∧ t.amount = SQLVal.real 0) := by
  unfold add_transaction
  refine ⟨by simp, ?_⟩
  exact ⟨_, List.mem_append_right _ (List.mem_singleton_self _), rfl, rfl⟩

/-- C4, confirmed: when the gateway call yields the GatewayError
outcome (None), the deposit handler creates no ledger entry, leaves the
whole store and in particular the requesting account's balance
unchanged, and reports failure to the caller rather than crashing. -/
theorem cmd_deposit_gateway_error_no_entry
    (from_user_id : Int) (now : Nat) (db : DB) :
    (cmd_deposit from_user_id none now db).1.transactions = db.transactions ∧
    balanceOf from_user_id (cmd_deposit from_user_id none now db).1 =
      balanceOf from_user_id db ∧
    (cmd_deposit from_user_id none now db).1 = db ∧
    (cmd_deposit from_user_id none now db).2 = false := by
  exact ⟨rfl, rfl, rfl, rfl⟩

/-- C5, confirmed: starting from a store in which the external
identifier occurs at most once, registering twice with that identifier
leaves the store of the first call untouched, returns the same stored
record again, and the store holds exactly one account row for the
identifier. -/
theorem get_or_create_user_idempotent
    (telegram_id : Int) (u1 f1 l1 u2 f2 l2 : Option String) (n1 n2 : Nat) (db : DB)
    (h : (db.users.filter (fun u => u.telegram_id == telegram_id)).length ≤ 1) :
    (get_or_create_user telegram_id u2 f2 l2 n2
        (get_or_create_user telegram_id u1 f1 l1 n1 db).2).2 =
      (get_or_create_user telegram_id u1 f1 l1 n1 db).2 ∧
    (get_or_create_user telegram_id u2 f2 l2 n2
        (get_or_create_user telegram_id u1 f1 l1 n1 db).2).1 =
      (get_or_create_user telegram_id u1 f1 l1 n1 db).1 ∧
    (((get_or_create_user telegram_id u2 f2 l2 n2
        (get_or_create_user telegram_id u1 f1 l1 n1 db).2).2.users.filter
      (fun u => u.telegram_id == telegram_id)).length = 1) := by
  have hany := any_after_ensure telegram_id u1 f1 l1 n1 db
  have hsecond := get_or_create_user_of_any telegram_id u2 f2 l2 n2
    (get_or_create_user telegram_id u1 f1 l1 n1 db).2 hany
  rw [hsecond]
  refine ⟨rfl, rfl, ?_⟩
  by_cases hd : db.users.any (fun u => u.telegram_id == telegram_id) = true
  · have hr1 : (get_or_create_user telegram_id u1 f1 l1 n1 db).2 = db := by
      rw [get_or_create_user_of_any _ _ _ _ _ _ hd]
    rw [hr1]
    obtain ⟨x, hx, hpx⟩ := List.any_eq_true.mp hd
    have hmem : x ∈ db.users.filter (fun u => u.telegram_id == telegram_id) :=
      List.mem_filter.mpr ⟨hx, hpx⟩
    have hpos : 0 < (db.users.filter (fun u => u.telegram_id == telegram_id)).length :=
      List.length_pos.mpr (List.ne_nil_of_mem hmem)
    omega
  · have hnil : db.users.filter (fun u => u.telegram_id == telegram_id) = [] := by
      apply List.filter_eq_nil_iff.mpr
      rw [Bool.not_eq_true] at hd
      exact List.any_eq_false.mp hd
    show (((insert_or_ignore_user telegram_id u1 f1 l1 n1 db).users.filter
      (fun u => u.telegram_id == telegram_id)).length = 1)
    unfold insert_or_ignore_user
    rw [if_neg hd]
    simp [List.filter_append, hnil]

/-- C5, witness: the idempotency theorem applied to the empty store and
identifier 42, with different profile fields on the two calls. -/
theorem get_or_create_user_idempotent_witness :
    (get_or_create_user 42 (some "b") none none 7
        (get_or_create_user 42 (some "a") none none 3 emptyDB).2).2 =
      (get_or_create_user 42 (some "a") none none 3 emptyDB).2 ∧
    (get_or_create_user 42 (some "b") none none 7
        (get_or_create_user 42 (some "a") none none 3 emptyDB).2).1 =
      (get_or_create_user 42 (some "a") none none 3 emptyDB).1 ∧
    (((get_or_create_user 42 (some "b") none none 7
        (get_or_create_user 42 (some "a") none none 3 emptyDB).2).2.users.filter
      (fun u => u.telegram_id == 42)).length = 1) := by
  exact get_or_create_user_idempotent 42 (some "a") none none (some "b") none none
    3 7 emptyDB (by decide)

/-- C6, counterexample: account 42 is stored with username "a";
re-registering it with username "b" leaves the stored username at "a",
so re-registration does not refresh the display fields to the newly
supplied values. -/
theorem display_fields_not_refreshed_cex :
    usernameOf 42 (get_or_create_user 42 (some "b") (some "X") (some "Y") 5 dbUserA).2 =
      some (some "a") ∧
    (some "a" : Option String) ≠ some "b" := by
  decide

/-- C6, amended: for an already-registered external identifier,
registering again is a complete no-op on the stored record: display
fields, identity and creation timestamp all keep their stored values
(INSERT OR IGNORE skips the whole row), and the call returns the
stored record. -/
theorem re_register_is_noop (telegram_id : Int)
    (username first_name last_name : Option String) (now : Nat) (db : DB)
    (h : ∃ u ∈ db.users, u.telegram_id = telegram_id) :
    (get_or_create_user telegram_id username first_name last_name now db).2 = db ∧
    (get_or_create_user telegram_id username first_name last_name now db).1 =
      db.users.find? (fun u => u.telegram_id == telegram_id) := by
  obtain ⟨u, hu, he⟩ := h
  have hany : db.users.any (fun x => x.telegram_id == telegram_id) = true :=
    List.any_eq_true.mpr ⟨u, hu, by simp [he]⟩
  rw [get_or_create_user_of_any _ _ _ _ _ _ hany]
  exact ⟨rfl, rfl⟩

/-- C6, witness: the no-op theorem applied to the store holding account
42 with username "a", re-registered with fresh display fields. -/
theorem re_register_is_noop_witness :
    (get_or_create_user 42 (some "b") (some "X") (some "Y") 5 dbUserA).2 = dbUserA ∧
    (get_or_create_user 42 (some "b") (some "X") (some "Y") 5 dbUserA).1 =
      dbUserA.users.find? (fun u => u.telegram_id == 42) := by
  exact re_register_is_noop 42 (some "b") (some "X") (some "Y") 5 dbUserA (by decide)

/-- C7, counterexample: identifier 1848571732 is on the static
allow-list, yet with no account row stored for it the authorization
check returns false, where the claim says an allow-listed identifier is
authorized even without an account record. -/
theorem allow_list_without_account_cex :
    is_admin 1848571732 emptyDB = false ∧ (1848571732 : Int) ∈ ADMIN_IDS := by
  decide

/-- C7, amended: on a store whose account rows have pairwise distinct
external identifiers, the authorization check returns true exactly when
an account row for the caller exists AND that row's admin flag is set
or the caller's identifier is on the allow-list; without an account row
the check always returns false. -/
theorem is_admin_requires_account (telegram_id : Int) (db : DB)
    (hw : ∀ u ∈ db.users, ∀ v ∈ db.users, u.telegram_id = v.telegram_id → u = v) :
    (is_admin telegram_id db = true ↔
      ∃ u ∈ db.users, u.telegram_id = telegram_id ∧
        (u.is_admin = true ∨ telegram_id ∈ ADMIN_IDS)) := by
  unfold is_admin get_user_by_telegram_id
  constructor
  · intro hadm
    cases hfind : db.users.find? (fun u => u.telegram_id == telegram_id) with
    | none => rw [hfind] at hadm; cases hadm
    | some u =>
        rw [hfind] at hadm
        have hpu : (u.telegram_id == telegram_id) = true := by
          have hx := List.find?_some hfind
          exact hx
        refine ⟨u, List.mem_of_find?_eq_some hfind, beq_iff_eq.mp hpu, ?_⟩
        have hadm2 : (u.is_admin || ADMIN_IDS.contains telegram_id) = true := hadm
        cases Bool.or_eq_true _ _ ▸ hadm2 with
        | inl hflag => exact Or.inl hflag
        | inr hlist => exact Or.inr (List.elem_iff.mp hlist)
  · rintro ⟨u, hu, hid, hor⟩
    have hsome : (db.users.find? (fun x => x.telegram_id == telegram_id)).isSome :=
      List.find?_isSome.mpr ⟨u, hu, by simp [hid]⟩
    obtain ⟨u0, hfind⟩ := Option.isSome_iff_exists.mp hsome
    have hpu0 : (u0.telegram_id == telegram_id) = true := by
      have hx := List.find?_some hfind
      exact hx
    have hu0id : u0.telegram_id = telegram_id := beq_iff_eq.mp hpu0
    have hu0 : u0 = u := hw u0 (List.mem_of_find?_eq_some hfind) u hu
      (by rw [hu0id, hid])
    rw [hfind, hu0]
    cases hor with
    | inl hflag => simp [hflag]
    | inr hlist => simp [hlist]

/-- C7, witness: the authorization characterization applied to the
store with one account (identifier 7) whose stored admin flag is set. -/
theorem is_admin_requires_account_witness :
    (is_admin 7 dbFlaggedAdmin = true ↔
      ∃ u ∈ dbFlaggedAdmin.users, u.telegram_id = 7 ∧
        (u.is_admin = true ∨ (7 : Int) ∈ ADMIN_IDS)) := by
  exact is_admin_requires_account 7 dbFlaggedAdmin (by decide)

/-- C8, confirmed: each completed-amount aggregate equals the rational
sum of the numeric amounts of exactly the entries whose kind matches
and whose status is completed; over a ledger whose entries are all
pending (in particular an empty one) both aggregates return zero rather
than failing; and on the store obtained by completing two deposits of
amounts 10 and 15 the deposit aggregate returns 25. The aggregates are
pure functions of the store and mutate nothing. -/
theorem completed_totals_correct (db : DB) :
    (get_total_completed_deposit_amount db =
        ((db.transactions.filter
          (fun t => t.type == "deposit" && t.status == "completed")).map
            (fun t => t.amount.toNum.getD 0)).sum ∧
      get_total_completed_withdrawal_amount db =
        ((db.transactions.filter
          (fun t => t.type == "withdrawal" && t.status == "completed")).map
            (fun t => t.amount.toNum.getD 0)).sum) ∧
    ((∀ t ∈ db.transactions, t.status = "pending") →
      get_total_completed_deposit_amount db = 0 ∧
      get_total_completed_withdrawal_amount db = 0) ∧
    get_total_completed_deposit_amount dbTwoCompletedDeposits = 25 := by
  have hnil : ∀ ty : String, (∀ t ∈ db.transactions, t.status = "pending") →
      db.transactions.filter (fun t => t.type == ty && t.status == "completed") = [] := by
    intro ty hp
    apply List.filter_eq_nil_iff.mpr
    intro t ht
    rw [hp t ht]
    simp
  refine ⟨⟨?_, ?_⟩, fun hp => ⟨?_, ?_⟩, ?_⟩
  · unfold get_total_completed_deposit_amount
    rw [sqlSum_getD, List.map_map]
    rfl
  · unfold get_total_completed_withdrawal_amount
    rw [sqlSum_getD, List.map_map]
    rfl
  · unfold get_total_completed_deposit_amount
    rw [hnil "deposit" hp]
    rfl
  · unfold get_total_completed_withdrawal_amount
    rw [hnil "withdrawal" hp]
    rfl
  · show get_total_completed_deposit_amount dbTwoCompletedDeposits = 25
    unfold get_total_completed_deposit_amount dbTwoCompletedDeposits
    norm_num [emptyDB, add_transaction, update_transaction_status, sqlSum,
      SQLVal.toNum, List.filter]

/-- C8, witness: the aggregate theorem applied to the empty store,
whose entries are vacuously all pending, yields the zero totals. -/
theorem completed_totals_correct_witness :
    get_total_completed_deposit_amount emptyDB = 0 ∧
    get_total_completed_withdrawal_amount emptyDB = 0 := by
  exact (completed_totals_correct emptyDB).2.1 (by simp [emptyDB])

/-- C10, confirmed: when the gateway response exists but omits the
amount key, the deposit handler still records exactly one new pending
deposit entry, whose stored amount is the text placeholder
(not a number of any value), and whose currency falls back to TON
whenever the currency key is also absent. -/
theorem cmd_deposit_placeholder_amount
    (from_user_id : Int) (now : Nat) (db : DB) (r : ApiResponse)
    (h : r.amount = none) :
    (cmd_deposit from_user_id (some r) now db).2 = true ∧
    ∃ t, (cmd_deposit from_user_id (some r) now db).1.transactions =
        db.transactions ++ [t] ∧
      t.amount = SQLVal.text "Неизвестна" ∧
      t.status = "pending" ∧
      t.type = "deposit" ∧
      t.user_telegram_id = from_user_id ∧
      t.currency = r.currency.getD "TON" ∧
      (∀ q : ℚ, t.amount ≠ SQLVal.real q) := by
  obtain ⟨addr, amt, cur, ins, ext⟩ := r
  subst h
  exact ⟨rfl, ⟨_, rfl, rfl, rfl, rfl, rfl, rfl, fun q hq => SQLVal.noConfusion hq⟩⟩

/-- C10, witness: the placeholder theorem applied to the concrete
response that has an address but no amount and no currency, on the
empty store. -/
theorem cmd_deposit_placeholder_amount_witness :
    (cmd_deposit 42 (some apiNoAmount) 0 emptyDB).2 = true ∧
    ∃ t, (cmd_deposit 42 (some apiNoAmount) 0 emptyDB).1.transactions =
        emptyDB.transactions ++ [t] ∧
      t.amount = SQLVal.text "Неизвестна" ∧
      t.status = "pending" ∧
      t.type = "deposit" ∧
      t.user_telegram_id = 42 ∧
      t.currency = apiNoAmount.currency.getD "TON" ∧
      (∀ q : ℚ, t.amount ≠ SQLVal.real q) := by
  exact cmd_deposit_placeholder_amount 42 0 emptyDB apiNoAmount rfl

end DepositBot
